import Mathlib

/-!
# Verification of the token-minting endpoint (`src/app/api/ably/route.ts`)

Shallow embedding of the one piece of first-party logic in this repository:
the role-to-capability mapper `generateCapability`, the token issuer
`createToken`, and the HTTP handler `GET`.  Pure data is translated
directly; the per-request control flow of the handler becomes a pure
function of the session, the configured secret and the signing instant.
-/

set_option autoImplicit false

namespace LiveChat

/-- A capability mapping: channel name mapped to an ordered list of permitted
operation strings, in the order the source object literal lists them. -/
abbrev Capability := List (String × List String)

/-- The role claim object `\x7b isMod: boolean \x7d` passed to the mapper and
the issuer. -/
structure RoleClaim where
  isMod : Bool
deriving DecidableEq, Repr

/-- Character-level semantics of the JavaScript call `s.split(":")`:
split on every colon, keeping empty segments, with `"" ↦ [""]`. -/
def splitColonChars : List Char → List (List Char)
  | [] => [[]]
  | c :: cs =>
    if c = ':' then
      [] :: splitColonChars cs
    else
      match splitColonChars cs with
      | [] => [[c]]
      | r :: rs => (c :: r) :: rs

/-- The JavaScript call `s.split(":")` on strings. -/
def splitColon (s : String) : List String :=
  (splitColonChars s.data).map String.mk

/-- `apiKey.split(":", 2)` from the source: a limit of 2 truncates the split
to its first two segments. -/
def apiKeyParts (apiKey : String) : List String :=
  (splitColon apiKey).take 2

/-- The destructured `appId` (first segment; `""` can only arise from an
empty leading segment, the list itself is never empty). -/
def appIdOf (apiKey : String) : String :=
  (apiKeyParts apiKey).headD ""

/-- The destructured `signingKey` (second segment).  When the secret has no
colon the destructuring yields `undefined`, which `TextEncoder.encode`
treats as the missing optional argument and encodes as the empty byte
string; both cases are therefore modelled as `""`. -/
def signingKeyOf (apiKey : String) : String :=
  ((apiKeyParts apiKey).drop 1).headD ""

/-- The protected header set by `setProtectedHeader`. -/
structure TokenHeader where
  kid : String
  alg : String
deriving DecidableEq, Repr

/-- The JWT payload assembled by `createToken`.  The two claims the source
serialises with `JSON.stringify` are kept as structured data; decoding a
claim of an issued token is projection of the corresponding field. -/
structure TokenPayload where
  xAblyCapability : Capability
  xAblyClientId : String
  ablyChannelClaim : RoleClaim
  iat : Nat
  exp : Nat
deriving DecidableEq, Repr

/-- A signed token: protected header, payload, and the HMAC key material the
signature was produced with. -/
structure Token where
  header : TokenHeader
  payload : TokenPayload
  signingKey : String
deriving DecidableEq, Repr

/-- Shallow embedding of `createToken`.  The secret is split with
`split(":", 2)`; no other validation is performed.  The jose
`SignJWT.sign` step is modelled as failing exactly when the derived HMAC
key material is empty (a WebCrypto HS256 import rejects a zero-length
key; the spec calls this the malformed-key-material failure mode), and
otherwise producing the token whose header is `\x7b kid: appId, alg: "HS256" \x7d`
and whose payload carries the capability, the client id, the role claim,
`iat = now` and `exp = now + 24h`. -/
def createToken (clientId : String) (apiKey : String) (claim : RoleClaim)
    (capability : Capability) (now : Nat) : Option Token :=
  if signingKeyOf apiKey = "" then
    none
  else
    some
      { header := { kid := appIdOf apiKey, alg := "HS256" }
        payload :=
          { xAblyCapability := capability
            xAblyClientId := clientId
            ablyChannelClaim := claim
            iat := now
            exp := now + 86400 }
        signingKey := signingKeyOf apiKey }

/-- Shallow embedding of `generateCapability` from the source. -/
def generateCapability (claim : RoleClaim) : Capability :=
  if claim.isMod then
    [("*", ["*"])]
  else
    [("chat:general", ["subscribe", "publish", "presence", "history"]),
     ("chat:random", ["subscribe", "publish", "presence", "history"]),
     ("chat:announcements", ["subscribe", "presence", "history"])]

/-- The fixed three-channel table the spec names for non-elevated users,
written out from the words of section 8, property 2. -/
def nonElevatedTable : Capability :=
  [("chat:general", ["subscribe", "publish", "presence", "history"]),
   ("chat:random", ["subscribe", "publish", "presence", "history"]),
   ("chat:announcements", ["subscribe", "presence", "history"])]

/-- The spec predicate on secrets: exactly one separator splitting the
string into two non-empty parts. -/
def wellFormedSecret (s : String) : Bool :=
  match splitColon s with
  | [a, b] => a != "" && b != ""
  | _ => false

/-- The `user` object of a session, with the fields the handler reads
(`email`, and the `role` field of the commented-out derivation). -/
structure SessionUser where
  email : Option String
  role : Option String
deriving DecidableEq, Repr

/-- A session as returned by the external `auth()` provider. -/
structure Session where
  user : Option SessionUser
deriving DecidableEq, Repr

/-- The JSON body and HTTP status of a `NextResponse.json` reply. -/
structure ApiResponse where
  success : Bool
  token : Option Token
  error : Option String
  status : Nat
deriving DecidableEq, Repr

/-- Result of one run of the handler: the response, plus whether the run
reached the `createToken` call (the signing step). -/
structure GetOutcome where
  response : ApiResponse
  calledCreateToken : Bool
deriving DecidableEq, Repr

/-- The optional chain `session?.user` then `user?.email`. -/
def sessionEmail (session : Option Session) : Option String :=
  (session.bind Session.user).bind SessionUser.email

/-- The failure reply `\x7b success: false, error: "Token generation failed" \x7d`
with status 500. -/
def tokenGenerationFailed : ApiResponse :=
  { success := false, token := none
    error := some "Token generation failed", status := 500 }

/-- The catch-branch reply `\x7b success: false, error: "Internal server error" \x7d`
with status 500. -/
def internalServerError : ApiResponse :=
  { success := false, token := none
    error := some "Internal server error", status := 500 }

/-- Shallow embedding of the `GET` handler.  The session lookup becomes the
`session` argument, the environment variable `ABLY_SECRET_KEY` becomes
`ablySecretKey`, and the signing instant becomes `now`.  The guard
`user?.email && (await createToken(...))` short-circuits on a missing or
empty email (the empty string is falsy), so `createToken` is not invoked
there; a failure thrown by the signing step is caught by the
surrounding try/catch and answered with the internal-server-error
reply.  The role claim is the hardcoded `\x7b isMod: false \x7d`. -/
def GET (session : Option Session) (ablySecretKey : String) (now : Nat) :
    GetOutcome :=
  let userClaim : RoleClaim := { isMod := false }
  let userCapability := generateCapability userClaim
  match sessionEmail session with
  | none => { response := tokenGenerationFailed, calledCreateToken := false }
  | some email =>
    if email = "" then
      { response := tokenGenerationFailed, calledCreateToken := false }
    else
      match createToken email ablySecretKey userClaim userCapability now with
      | some tok =>
        { response :=
            { success := true, token := some tok, error := none, status := 200 }
          calledCreateToken := true }
      | none =>
        { response := internalServerError, calledCreateToken := true }

/-- Splitting never yields the empty list of segments. -/
theorem splitColonChars_ne_nil (l : List Char) : splitColonChars l ≠ [] := by
  cases l with
  | nil => simp [splitColonChars]
  | cons c cs =>
    unfold splitColonChars
    split
    · simp
    · split <;> simp

/-- A colon-free character list is a single segment. -/
theorem splitColonChars_no_colon (xs : List Char) (hx : ':' ∉ xs) :
    splitColonChars xs = [xs] := by
  induction xs with
  | nil => rfl
  | cons c cs ih =>
    simp only [List.mem_cons, not_or] at hx
    have hc : ¬ c = ':' := fun h => hx.1 h.symm
    simp [splitColonChars, hc, ih hx.2]

/-- The segment before the first colon is split off whole. -/
theorem splitColonChars_append_colon (xs ys : List Char) (hx : ':' ∉ xs) :
    splitColonChars (xs ++ ':' :: ys) = xs :: splitColonChars ys := by
  induction xs with
  | nil => simp [splitColonChars]
  | cons c cs ih =>
    simp only [List.mem_cons, not_or] at hx
    have hc : ¬ c = ':' := fun h => hx.1 h.symm
    simp only [List.cons_append]
    simp [splitColonChars, hc, ih hx.2]

/-- Splitting a secret assembled from two colon-free parts. -/
theorem splitColon_pair (a b : String) (ha : ':' ∉ a.data) (hb : ':' ∉ b.data) :
    splitColon (a ++ ":" ++ b) = [a, b] := by
  unfold splitColon
  have hdata : (a ++ ":" ++ b).data = a.data ++ ':' :: b.data := by
    simp
  rw [hdata, splitColonChars_append_colon a.data b.data ha,
    splitColonChars_no_colon b.data hb]
  rfl

/-- The two destructured segments of a two-part secret. -/
theorem signingKeyOf_pair (a b : String) (ha : ':' ∉ a.data)
    (hb : ':' ∉ b.data) : signingKeyOf (a ++ ":" ++ b) = b := by
  simp [signingKeyOf, apiKeyParts, splitColon_pair a b ha hb]

/-- The app-id segment of a two-part secret. -/
theorem appIdOf_pair (a b : String) (ha : ':' ∉ a.data)
    (hb : ':' ∉ b.data) : appIdOf (a ++ ":" ++ b) = a := by
  simp [appIdOf, apiKeyParts, splitColon_pair a b ha hb]

/-- Inversion principle for `createToken`: it yields a token exactly when
the derived key material is non-empty, and then every field of the token
is determined by the inputs. -/
theorem createToken_eq_some_iff (clientId : String) (apiKey : String)
    (claim : RoleClaim) (cap : Capability) (now : Nat) (tok : Token) :
    createToken clientId apiKey claim cap now = some tok ↔
      signingKeyOf apiKey ≠ "" ∧
        tok = { header := { kid := appIdOf apiKey, alg := "HS256" }
                payload :=
                  { xAblyCapability := cap
                    xAblyClientId := clientId
                    ablyChannelClaim := claim
                    iat := now
                    exp := now + 86400 }
                signingKey := signingKeyOf apiKey } := by
  unfold createToken
  split
  · simp_all
  · simp_all [eq_comm]

/-- C1: for a role claim with `isMod = false`, `generateCapability` returns
exactly the fixed three-channel table, and that mapping has no wildcard
channel entry and no wildcard operation. -/
theorem generateCapability_not_elevated (c : RoleClaim) (h : c.isMod = false) :
    generateCapability c = nonElevatedTable ∧
      ∀ p ∈ generateCapability c, p.1 ≠ "*" ∧ "*" ∉ p.2 := by
  obtain ⟨m⟩ := c
  revert h
  cases m <;> decide

/-- Witness for C1 at the concrete claim `\x7b isMod: false \x7d`. -/
theorem generateCapability_not_elevated_witness :
    (RoleClaim.mk false).isMod = false ∧
      (generateCapability ⟨false⟩ = nonElevatedTable ∧
        ∀ p ∈ generateCapability ⟨false⟩, p.1 ≠ "*" ∧ "*" ∉ p.2) :=
  ⟨by decide, generateCapability_not_elevated ⟨false⟩ (by decide)⟩

/-- C2: for a role claim with `isMod = true`, `generateCapability` returns
exactly the single wildcard-to-wildcard entry and nothing else. -/
theorem generateCapability_elevated (c : RoleClaim) (h : c.isMod = true) :
    generateCapability c = [("*", ["*"])] := by
  obtain ⟨m⟩ := c
  revert h
  cases m <;> decide

/-- Witness for C2 at the concrete claim `\x7b isMod: true \x7d`. -/
theorem generateCapability_elevated_witness :
    (RoleClaim.mk true).isMod = true ∧
      generateCapability ⟨true⟩ = [("*", ["*"])] :=
  ⟨by decide, generateCapability_elevated ⟨true⟩ (by decide)⟩

/-- C4, counterexample: the secret `"A:B:C"` does not split into exactly two
non-empty colon-separated parts (it has more than one colon), so the
claim requires issuance to fail; yet `createToken` succeeds, because
`split(":", 2)` keeps only the first two segments `"A"` and `"B"` and
signs with the non-empty key `"B"`. -/
theorem createToken_extra_colon_succeeds :
    wellFormedSecret "A:B:C" = false ∧
      (createToken "user123" "A:B:C" ⟨false⟩ nonElevatedTable 0).isSome = true := by
  decide

/-- C4, amended: `createToken` fails exactly when the signing-key segment
derived by `split(":", 2)` is missing or empty — a secret with no colon,
or with nothing between the first colon and the next colon or the end of
the string.  Secrets with further colons, or with an empty part before
the first colon, still yield a signed token built from the first two
segments. -/
theorem createToken_none_iff_empty_key (clientId : String) (apiKey : String)
    (claim : RoleClaim) (cap : Capability) (now : Nat) :
    createToken clientId apiKey claim cap now = none ↔
      signingKeyOf apiKey = "" := by
  unfold createToken
  split <;> simp_all

/-- C5: for a non-empty identity, a secret of the form `A:B` with `A` and
`B` non-empty (and colon-free, so the form is unambiguous), and any
capability mapping, `createToken` succeeds and the resulting token has
protected header `kid = A` and `alg = "HS256"`. -/
theorem createToken_wellformed_header (clientId a b : String)
    (claim : RoleClaim) (cap : Capability) (now : Nat)
    (hclient : clientId ≠ "") (ha : a ≠ "") (hb : b ≠ "")
    (hca : ':' ∉ a.data) (hcb : ':' ∉ b.data) :
    createToken clientId (a ++ ":" ++ b) claim cap now =
      some
        { header := { kid := a, alg := "HS256" }
          payload :=
            { xAblyCapability := cap
              xAblyClientId := clientId
              ablyChannelClaim := claim
              iat := now
              exp := now + 86400 }
          signingKey := b } := by
  unfold createToken
  rw [signingKeyOf_pair a b hca hcb, appIdOf_pair a b hca hcb, if_neg hb]

/-- Witness for C5 with identity `"user123"` and secret
`"appId" ++ ":" ++ "signingKey"`. -/
theorem createToken_wellformed_header_witness :
    ("user123" : String) ≠ "" ∧ ("appId" : String) ≠ "" ∧
      ("signingKey" : String) ≠ "" ∧ ':' ∉ "appId".data ∧
      ':' ∉ "signingKey".data ∧
      createToken "user123" ("appId" ++ ":" ++ "signingKey") ⟨false⟩
          nonElevatedTable 5 =
        some
          { header := { kid := "appId", alg := "HS256" }
            payload :=
              { xAblyCapability := nonElevatedTable
                xAblyClientId := "user123"
                ablyChannelClaim := ⟨false⟩
                iat := 5
                exp := 5 + 86400 }
            signingKey := "signingKey" } :=
  ⟨by decide, by decide, by decide, by decide, by decide,
    createToken_wellformed_header "user123" "appId" "signingKey" ⟨false⟩
      nonElevatedTable 5 (by decide) (by decide) (by decide) (by decide)
      (by decide)⟩

/-- A sample token issued for client `"user123"` under the well-formed
secret `"appId:signingKey"` at instant `now`; used by concrete
instantiations below. -/
def sampleTokenAt (now : Nat) : Token :=
  { header := { kid := "appId", alg := "HS256" }
    payload :=
      { xAblyCapability := nonElevatedTable
        xAblyClientId := "user123"
        ablyChannelClaim := ⟨false⟩
        iat := now
        exp := now + 86400 }
    signingKey := "signingKey" }

/-- C8: in every token `createToken` issues, the expiration timestamp
equals the issued-at timestamp plus exactly 24 hours (86400 seconds). -/
theorem token_exp_eq_iat_add_24h (clientId : String) (apiKey : String)
    (claim : RoleClaim) (cap : Capability) (now : Nat) (tok : Token)
    (h : createToken clientId apiKey claim cap now = some tok) :
    tok.payload.exp = tok.payload.iat + 86400 := by
  rw [createToken_eq_some_iff] at h
  rw [h.2]

/-- Witness for C8 at instant 1000 under the secret `"appId:signingKey"`. -/
theorem token_exp_eq_iat_add_24h_witness :
    createToken "user123" "appId:signingKey" ⟨false⟩ nonElevatedTable 1000 =
        some (sampleTokenAt 1000) ∧
      (sampleTokenAt 1000).payload.exp =
        (sampleTokenAt 1000).payload.iat + 86400 :=
  ⟨by decide,
    token_exp_eq_iat_add_24h "user123" "appId:signingKey" ⟨false⟩
      nonElevatedTable 1000 (sampleTokenAt 1000) (by decide)⟩

/-- C9: two `createToken` runs with the same identity, secret, role claim
and capability mapping, at possibly different signing instants, yield
tokens with identical capability claims and identical client-identity
claims; when the instants differ the tokens themselves differ (the
issued-at claim, an input of the signature, differs). -/
theorem token_claims_instant_independent (clientId : String) (apiKey : String)
    (claim : RoleClaim) (cap : Capability) (n1 n2 : Nat) (t1 t2 : Token)
    (h1 : createToken clientId apiKey claim cap n1 = some t1)
    (h2 : createToken clientId apiKey claim cap n2 = some t2) :
    t1.payload.xAblyCapability = t2.payload.xAblyCapability ∧
      t1.payload.xAblyClientId = t2.payload.xAblyClientId ∧
      (n1 ≠ n2 → t1 ≠ t2) := by
  rw [createToken_eq_some_iff] at h1 h2
  rw [h1.2, h2.2]
  refine ⟨rfl, rfl, fun hne heq => hne ?_⟩
  simpa using congrArg (fun t => t.payload.iat) heq

/-- Witness for C9 at the instants 0 and 1. -/
theorem token_claims_instant_independent_witness :
    createToken "user123" "appId:signingKey" ⟨false⟩ nonElevatedTable 0 =
        some (sampleTokenAt 0) ∧
      createToken "user123" "appId:signingKey" ⟨false⟩ nonElevatedTable 1 =
        some (sampleTokenAt 1) ∧
      ((sampleTokenAt 0).payload.xAblyCapability =
          (sampleTokenAt 1).payload.xAblyCapability ∧
        (sampleTokenAt 0).payload.xAblyClientId =
          (sampleTokenAt 1).payload.xAblyClientId ∧
        ((0 : Nat) ≠ 1 → sampleTokenAt 0 ≠ sampleTokenAt 1)) :=
  ⟨by decide, by decide,
    token_claims_instant_independent "user123" "appId:signingKey" ⟨false⟩
      nonElevatedTable 0 1 (sampleTokenAt 0) (sampleTokenAt 1) (by decide)
      (by decide)⟩

/-- C3: every token the handler issues carries the hardcoded non-elevated
role claim and the fixed three-channel capability mapping, never the
wildcard mapping — elevation is unreachable through `GET`. -/
theorem get_token_never_elevated (s : Option Session) (k : String)
    (now : Nat) (tok : Token)
    (h : (GET s k now).response.token = some tok) :
    tok.payload.ablyChannelClaim.isMod = false ∧
      tok.payload.xAblyCapability = nonElevatedTable ∧
      tok.payload.xAblyCapability ≠ [("*", ["*"])] := by
  simp only [GET] at h
  split at h
  · simp [tokenGenerationFailed] at h
  · split at h
    · simp [tokenGenerationFailed] at h
    · split at h
      next t hct =>
        simp only [Option.some.injEq] at h
        subst h
        rw [createToken_eq_some_iff] at hct
        rw [hct.2]
        refine ⟨rfl, rfl, ?_⟩
        show generateCapability { isMod := false } ≠ [("*", ["*"])]
        decide
      next hct =>
        simp [internalServerError] at h

/-- A sample authenticated session whose user has the resolvable identity
`"a@example.com"`. -/
def sampleSession : Option Session :=
  some { user := some { email := some "a@example.com", role := none } }

/-- The token `GET` issues for `sampleSession` under the secret
`"appId:signingKey"` at instant 0. -/
def sampleIssuedToken : Token :=
  { header := { kid := "appId", alg := "HS256" }
    payload :=
      { xAblyCapability := nonElevatedTable
        xAblyClientId := "a@example.com"
        ablyChannelClaim := ⟨false⟩
        iat := 0
        exp := 86400 }
    signingKey := "signingKey" }

/-- Witness for C3 with `sampleSession` and the secret `"appId:signingKey"`. -/
theorem get_token_never_elevated_witness :
    (GET sampleSession "appId:signingKey" 0).response.token =
        some sampleIssuedToken ∧
      (sampleIssuedToken.payload.ablyChannelClaim.isMod = false ∧
        sampleIssuedToken.payload.xAblyCapability = nonElevatedTable ∧
        sampleIssuedToken.payload.xAblyCapability ≠ [("*", ["*"])]) :=
  ⟨by decide,
    get_token_never_elevated sampleSession "appId:signingKey" 0
      sampleIssuedToken (by decide)⟩

/-- C6: when the session lookup yields no resolvable identity, the handler
answers `\x7b success: false, error: "Token generation failed" \x7d` with
status 500, and the signing step `createToken` is never invoked. -/
theorem get_no_identity_fails (s : Option Session) (k : String) (now : Nat)
    (h : sessionEmail s = none) :
    (GET s k now).response = tokenGenerationFailed ∧
      (GET s k now).calledCreateToken = false := by
  simp [GET, h]

/-- Witness for C6 at the session-less request. -/
theorem get_no_identity_fails_witness :
    sessionEmail none = none ∧
      ((GET none "appId:signingKey" 0).response = tokenGenerationFailed ∧
        (GET none "appId:signingKey" 0).calledCreateToken = false) :=
  ⟨by decide, get_no_identity_fails none "appId:signingKey" 0 (by decide)⟩

/-- C7: for a request with a resolvable non-empty identity and a
well-formed secret `A:B`, the handler answers
`\x7b success: true, token: ... \x7d` with status 200, and the capability claim
of the issued token is exactly the fixed three-channel table. -/
theorem get_authenticated_success (s : Option Session) (a b : String)
    (now : Nat) (email : String)
    (hs : sessionEmail s = some email) (he : email ≠ "")
    (ha : a ≠ "") (hb : b ≠ "") (hca : ':' ∉ a.data) (hcb : ':' ∉ b.data) :
    (GET s (a ++ ":" ++ b) now).response =
      { success := true
        token := some
          { header := { kid := a, alg := "HS256" }
            payload :=
              { xAblyCapability := nonElevatedTable
                xAblyClientId := email
                ablyChannelClaim := ⟨false⟩
                iat := now
                exp := now + 86400 }
            signingKey := b }
        error := none
        status := 200 } := by
  simp only [GET, hs]
  rw [if_neg he]
  unfold createToken
  rw [signingKeyOf_pair a b hca hcb, appIdOf_pair a b hca hcb, if_neg hb]
  rfl

/-- Witness for C7 with `sampleSession` and the secret
`"appId" ++ ":" ++ "signingKey"`. -/
theorem get_authenticated_success_witness :
    sessionEmail sampleSession = some "a@example.com" ∧
      ("a@example.com" : String) ≠ "" ∧ ("appId" : String) ≠ "" ∧
      ("signingKey" : String) ≠ "" ∧ ':' ∉ "appId".data ∧
      ':' ∉ "signingKey".data ∧
      (GET sampleSession ("appId" ++ ":" ++ "signingKey") 7).response =
        { success := true
          token := some
            { header := { kid := "appId", alg := "HS256" }
              payload :=
                { xAblyCapability := nonElevatedTable
                  xAblyClientId := "a@example.com"
                  ablyChannelClaim := ⟨false⟩
                  iat := 7
                  exp := 7 + 86400 }
              signingKey := "signingKey" }
          error := none
          status := 200 } :=
  ⟨by decide, by decide, by decide, by decide, by decide, by decide,
    get_authenticated_success sampleSession "appId" "signingKey" 7
      "a@example.com" (by decide) (by decide) (by decide) (by decide)
      (by decide) (by decide)⟩

/-- C10: a session whose user has the empty string as email is treated
exactly like an unauthenticated request — the empty string is falsy in
the guard, so the handler answers the token-generation failure with
status 500 and never calls `createToken`. -/
theorem get_empty_email_fails (s : Option Session) (k : String) (now : Nat)
    (h : sessionEmail s = some "") :
    (GET s k now).response = tokenGenerationFailed ∧
      (GET s k now).calledCreateToken = false := by
  simp [GET, h]

/-- Witness for C10 at a session carrying an empty email. -/
theorem get_empty_email_fails_witness :
    sessionEmail (some { user := some { email := some "", role := none } }) =
        some "" ∧
      ((GET (some { user := some { email := some "", role := none } })
            "appId:signingKey" 0).response = tokenGenerationFailed ∧
        (GET (some { user := some { email := some "", role := none } })
            "appId:signingKey" 0).calledCreateToken = false) :=
  ⟨by decide,
    get_empty_email_fails
      (some { user := some { email := some "", role := none } })
      "appId:signingKey" 0 (by decide)⟩

end LiveChat
